import Mathlib

/-!
Shallow embedding of `src/get_pipeline_runs.py`, a thin Python client over
the Azure Synapse data-plane HTTP API.  The module defines three operations
(`get_pipeline_runs`, `get_activity_runs`, `get_notebook_output`) plus a
token provider (`get_access_token`).

Modelling conventions:
* JSON values are the inductive `Json` (numbers as `Int`; no claim computes
  on numeric JSON payloads).
* A naive Python `datetime` is the component record `DateTime`; for time
  *arithmetic* claims the same timeline is viewed as microseconds since an
  epoch (`Int`), since naive-datetime arithmetic with `timedelta` is exact
  microsecond arithmetic on that timeline and
  `timedelta(days = d) = d * 86400000000` microseconds.
* External I/O is made explicit: each operation takes the credential result
  and the HTTP response it would receive as parameters, and returns the list
  of observable side effects (requests issued, lines printed, files written)
  together with either a value or the first uncaught Python exception.
* `requests.Response.raise_for_status` raises `HTTPError` exactly when the
  status code is in 400–499 (client error) or 500–599 (server error) — for
  any status outside 400–599, non-standard codes ≥ 600 included, it
  returns normally; this library behaviour is embedded in
  `raise_for_status`.
* `json.dump`'s serialisation is external library code; the file write is
  recorded as an effect carrying the document and the exact arguments the
  source passes (`indent=2`, `ensure_ascii=False`, mode `"w"` i.e.
  truncate/overwrite, UTF-8 encoding).
-/

/-- A JSON document. -/
inductive Json where
  | null : Json
  | bool (b : Bool) : Json
  | num (n : Int) : Json
  | str (s : String) : Json
  | arr (elems : List Json) : Json
  | obj (fields : List (String × Json)) : Json

/-- Python `dict`-style lookup on a JSON object; `none` on a non-object or a
missing key. -/
def jsonLookup : Json → String → Option Json
  | .obj fields, k => fields.lookup k
  | _, _ => none

/-- A naive Python `datetime` (no timezone), by components. -/
structure DateTime where
  year : Nat
  month : Nat
  day : Nat
  hour : Nat
  minute : Nat
  second : Nat
  microsecond : Nat
  deriving Repr, DecidableEq

/-- The range Python's `datetime` admits (day bound relaxed to 31;
month lengths are irrelevant to every claim below). -/
def DateTime.valid (dt : DateTime) : Prop :=
  1 ≤ dt.year ∧ dt.year ≤ 9999 ∧ 1 ≤ dt.month ∧ dt.month ≤ 12 ∧
  1 ≤ dt.day ∧ dt.day ≤ 31 ∧ dt.hour ≤ 23 ∧ dt.minute ≤ 59 ∧
  dt.second ≤ 59 ∧ dt.microsecond ≤ 999999

instance (dt : DateTime) : Decidable dt.valid := by
  unfold DateTime.valid; infer_instance

/-- Chronological order of naive datetimes, as a single natural key
(strictly monotone in each component for valid datetimes). -/
def DateTime.key (dt : DateTime) : Nat :=
  (((((dt.year * 13 + dt.month) * 32 + dt.day) * 24 + dt.hour) * 60 +
      dt.minute) * 60 + dt.second) * 1000000 + dt.microsecond

/-! ### `strftime` / `strptime` for the format `%Y-%m-%dT%H:%M:%S.%fZ`

The source formats every timestamp with
`dt.strftime("%Y-%m-%dT%H:%M:%S.%fZ")`: each numeric field zero-padded to
its documented width (year 4, month/day/hour/minute/second 2, microsecond 6)
with literal separators.  `strptime` below parses exactly the strings this
format emits (on such zero-padded fixed-width strings Python's greedy
1-to-n-digit `strptime` matching coincides with fixed-width matching,
because every field is followed by a non-digit separator). -/

/-- Exactly `w` base-10 digits of `n`, most significant first. -/
def padDigits : Nat → Nat → List Nat
  | 0, _ => []
  | w + 1, n => n / 10 ^ w :: padDigits w (n % 10 ^ w)

/-- The character for a single decimal digit. -/
def digitChar (d : Nat) : Char := Char.ofNat (48 + d)

/-- Rendering of `n` as exactly `w` zero-padded decimal characters. -/
def fmtNat (w n : Nat) : List Char := (padDigits w n).map digitChar

/-- Python `dt.strftime("%Y-%m-%dT%H:%M:%S.%fZ")`. -/
def DateTime.strftime (dt : DateTime) : String :=
  ⟨fmtNat 4 dt.year ++ ('-' :: (fmtNat 2 dt.month ++ ('-' :: (fmtNat 2 dt.day ++
    ('T' :: (fmtNat 2 dt.hour ++ (':' :: (fmtNat 2 dt.minute ++
    (':' :: (fmtNat 2 dt.second ++ ('.' :: (fmtNat 6 dt.microsecond ++
    ['Z']))))))))))))⟩

/-- Numeric value of a decimal digit character. -/
def charDigit (c : Char) : Nat := c.toNat - 48

/-- Accumulating decimal read. -/
def readNatAux : Nat → List Nat → Nat
  | a, [] => a
  | a, d :: ds => readNatAux (a * 10 + d) ds

/-- Read exactly `w` decimal digits from the front of `cs`. -/
def takeNum (w : Nat) (cs : List Char) : Option (Nat × List Char) :=
  let seg := cs.take w
  if seg.length = w ∧ seg.all Char.isDigit then
    some (readNatAux 0 (seg.map charDigit), cs.drop w)
  else none

/-- Consume one expected literal character. -/
def expectChar (c : Char) : List Char → Option (List Char)
  | [] => none
  | d :: rest => if d = c then some rest else none

/-- Parser for `%Y-%m-%dT%H:%M:%S.%fZ` over a character list. -/
def strptimeList (cs : List Char) : Option DateTime :=
  (takeNum 4 cs).bind fun py =>
  (expectChar '-' py.2).bind fun cs1 =>
  (takeNum 2 cs1).bind fun pmo =>
  (expectChar '-' pmo.2).bind fun cs2 =>
  (takeNum 2 cs2).bind fun pd =>
  (expectChar 'T' pd.2).bind fun cs3 =>
  (takeNum 2 cs3).bind fun ph =>
  (expectChar ':' ph.2).bind fun cs4 =>
  (takeNum 2 cs4).bind fun pmi =>
  (expectChar ':' pmi.2).bind fun cs5 =>
  (takeNum 2 cs5).bind fun ps =>
  (expectChar '.' ps.2).bind fun cs6 =>
  (takeNum 6 cs6).bind fun pus =>
  (expectChar 'Z' pus.2).bind fun cs7 =>
  if cs7.isEmpty then
    some ⟨py.1, pmo.1, pd.1, ph.1, pmi.1, ps.1, pus.1⟩
  else none

/-- Python `datetime.strptime(s, "%Y-%m-%dT%H:%M:%S.%fZ")`, restricted to the
strings `DateTime.strftime` emits (range validation omitted; both sides
agree on formatted valid datetimes). -/
def strptime (s : String) : Option DateTime := strptimeList s.data

/-! ### Calendar arithmetic for `timedelta(days = n)` subtraction

`end - timedelta(days = days_back)` shifts the calendar date by whole days
and keeps the time of day.  Days are counted from 1 March of year 0
(proleptic Gregorian), the standard era-based civil-calendar conversion. -/

/-- Day number (since 0000-03-01) of a civil date, `y ≥ 1`. -/
def daysFromCivil (y m d : Nat) : Nat :=
  let ys := if m ≤ 2 then y - 1 else y
  let era := ys / 400
  let yoe := ys % 400
  let mp := (m + 9) % 12
  let doy := (153 * mp + 2) / 5 + (d - 1)
  let doe := yoe * 365 + yoe / 4 - yoe / 100 + doy
  era * 146097 + doe

/-- Civil date of a day number (since 0000-03-01). -/
def civilFromDays (z : Nat) : Nat × Nat × Nat :=
  let era := z / 146097
  let doe := z % 146097
  let yoe := (doe - doe / 1460 + doe / 36524 - doe / 146097) / 365
  let doy := doe - (365 * yoe + yoe / 4 - yoe / 100)
  let mp := (5 * doy + 2) / 153
  let d := doy - (153 * mp + 2) / 5 + 1
  let m := if mp < 10 then mp + 3 else mp - 9
  (yoe + era * 400 + (if m ≤ 2 then 1 else 0), m, d)

/-- Subtraction `dt - timedelta(days = days)` (defined for results at or after
0001-03-01; outside `datetime`'s range Python raises `OverflowError`,
never reached by any claim). -/
def DateTime.subDays (dt : DateTime) (days : Nat) : DateTime :=
  let c := civilFromDays (daysFromCivil dt.year dt.month dt.day - days)
  { dt with year := c.1, month := c.2.1, day := c.2.2 }

/-! ### The timeline view used for window-arithmetic claims -/

/-- Microseconds in one day: `timedelta(days = 1)` on the naive-datetime
timeline. -/
def microsPerDay : Nat := 86400000000

/-- Subtraction `now - timedelta(days = d)` on the microsecond timeline. -/
def microsSubDays (now : Int) (d : Nat) : Int := now - (d : Int) * (microsPerDay : Int)

/-! ### HTTP model -/

/-- The response an operation receives: status code, the parsed JSON body
when `resp.json()` succeeds (`none` when the body is not valid JSON), and
the raw text (`resp.text`). -/
structure HttpResponse where
  status : Nat
  jsonBody : Option Json
  text : String

/-- The uncaught Python exceptions an operation can surface. -/
inductive PyError where
  /-- no credential source in `DefaultAzureCredential`'s chain succeeded -/
  | authError : PyError
  /-- exception `requests.HTTPError` from `raise_for_status` (status ≥ 400) -/
  | httpError (status : Nat) : PyError
  /-- failure of `resp.json()`: body is not valid JSON -/
  | jsonDecodeError : PyError
  /-- method `.get` called on a non-`dict` response value -/
  | attributeError : PyError
  deriving Repr, DecidableEq

/-- Model of `resp.raise_for_status()`: raises `HTTPError` iff
`400 ≤ status < 600` (4xx client error or 5xx server error); statuses
outside that band — 1xx–3xx and non-standard codes ≥ 600 — do not raise. -/
def raise_for_status (resp : HttpResponse) : Except PyError Unit :=
  if 400 ≤ resp.status ∧ resp.status < 600 then
    .error (.httpError resp.status)
  else .ok ()

/-- Model of `resp.json()`. -/
def respJson (resp : HttpResponse) : Except PyError Json :=
  match resp.jsonBody with
  | some j => .ok j
  | none => .error .jsonDecodeError

/-- Python `value.get(k, dflt)`: dictionary lookup with default on a JSON
object, `AttributeError` on anything else. -/
def dictGet (j : Json) (k : String) (dflt : Json) : Except PyError Json :=
  match j with
  | .obj fields => .ok ((fields.lookup k).getD dflt)
  | _ => .error .attributeError

/-- One observable side effect of an operation, in program order. -/
inductive Effect where
  /-- call `requests.post(url, headers=..., json=body)` -/
  | post (url : String) (headers : List (String × String)) (body : Json) : Effect
  /-- call `requests.get(url, headers=...)` -/
  | httpGet (url : String) (headers : List (String × String)) : Effect
  /-- line 58: `print(f"response: {resp.json()}")` -/
  | printResponse (j : Json) : Effect
  /-- line 86: `print(f"Activity status: {resp.status_code}")` -/
  | printActivityStatus (status : Nat) : Effect
  /-- line 88: `print(f"Activity response: {resp.text}")` -/
  | printActivityBody (text : String) : Effect
  /-- line 92: `print("Activity runs raw response:", data)` -/
  | printActivityData (j : Json) : Effect
  /-- line 122: `print("Notebook output written to notebook_output.json")` -/
  | printNotebookDone : Effect
  /-- calls `open(path, "w", encoding="utf-8")` + `json.dump(doc, f, indent=i,
  ensure_ascii=a)`: truncating (overwriting) write of the serialised
  document -/
  | writeJsonFile (path : String) (doc : Json) (indent : Nat)
      (ensureAscii : Bool) : Effect

/-! ### Module constants (lines 6–8) -/

/-- Constant `WORKSPACE = "test-synapse-jervis"` (line 6). -/
def WORKSPACE : String := "test-synapse-jervis"

/-- Constant `API_VERSION = "2020-12-01"` (line 7). -/
def API_VERSION : String := "2020-12-01"

/-- Constant ENDPOINT (line 8): the base address of the workspace. -/
def ENDPOINT : String := "https://" ++ WORKSPACE ++ ".dev.azuresynapse.net"

/-- The headers every request carries (lines 36–39, 72–75, 109–112). -/
def authHeaders (token : String) : List (String × String) :=
  [("Authorization", "Bearer " ++ token), ("Content-Type", "application/json")]

/-- Token provider `get_access_token` (lines 11–14): the credential chain is an external
collaborator, modelled by its outcome — `some token` when a credential
source succeeded, `none` when the chain failed and the call raises. -/
def get_access_token (cred : Option String) : Except PyError String :=
  match cred with
  | some t => .ok t
  | none => .error .authError

/-- Python truthiness of an optional string (`if pipeline_name:`):
`None` and `""` are falsy, every other string is truthy. -/
def pyTruthy : Option String → Bool
  | none => false
  | some s => !(s == "")

/-- Time-window resolution, lines 28–33, generic in the datetime
representation: if both bounds are supplied they are used verbatim
(`if start_time and end_time:` — a `datetime` object is always truthy, so
this tests that both are not `None`); otherwise `end = now (UTC)` and
`start = end - timedelta(days = days_back)`. -/
def resolveWindow {α : Type} (start_time end_time : Option α) (days_back : Nat)
    (now : α) (subDays : α → Nat → α) : α × α :=
  match start_time, end_time with
  | some s, some e => (s, e)
  | _, _ => (subDays now days_back, now)

/-- The equality filter added when `pipeline_name` is truthy (lines 47–53). -/
def pipelineNameFilter (p : String) : Json :=
  .obj [("operand", .str "PipelineName"), ("operator", .str "Equals"),
    ("values", .arr [.str p])]

/-- The request body of the pipeline-run query (lines 41–53):
`lastUpdatedAfter`/`lastUpdatedBefore` as `strftime` strings, plus a
`filters` key with a single pipeline-name equality filter when
`pipeline_name` is truthy. -/
def buildPipelineRunsBody (start dtEnd : DateTime) (pipeline_name : Option String) :
    Json :=
  let base := [("lastUpdatedAfter", Json.str start.strftime),
    ("lastUpdatedBefore", Json.str dtEnd.strftime)]
  if pyTruthy pipeline_name then
    .obj (base ++ [("filters", .arr [pipelineNameFilter (pipeline_name.getD "")])])
  else
    .obj base

/-- URL of the pipeline-run query (line 35). -/
def pipelineRunsUrl : String :=
  ENDPOINT ++ "/queryPipelineRuns?api-version=" ++ API_VERSION

/-- Operation `get_pipeline_runs` (lines 17–60).  `cred` is the credential-chain
outcome, `now` is the value `datetime.utcnow()` would return, `resp` the
response the POST would receive.  Returns the effect trace and either the
function's return value (`resp.json().get("value", [])`) or the uncaught
exception. -/
def get_pipeline_runs (cred : Option String) (now : DateTime)
    (resp : HttpResponse) (days_back : Nat) (pipeline_name : Option String)
    (start_time end_time : Option DateTime) :
    List Effect × Except PyError Json :=
  match get_access_token cred with
  | .error e => ([], .error e)
  | .ok token =>
    let w := resolveWindow start_time end_time days_back now DateTime.subDays
    let body := buildPipelineRunsBody w.1 w.2 pipeline_name
    let req := Effect.post pipelineRunsUrl (authHeaders token) body
    match raise_for_status resp with
    | .error e => ([req], .error e)
    | .ok _ =>
      match respJson resp with
      | .error e => ([req], .error e)
      | .ok j =>
        match dictGet j "value" (.arr []) with
        | .error e => ([req, .printResponse j], .error e)
        | .ok v => ([req, .printResponse j], .ok v)

/-- URL of the activity-run query (line 71). -/
def activityRunsUrl (pipeline_name pipeline_run_id : String) : String :=
  ENDPOINT ++ "/pipelines/" ++ pipeline_name ++ "/pipelineruns/" ++
    pipeline_run_id ++ "/queryActivityruns?api-version=" ++ API_VERSION

/-- Operation `get_activity_runs` (lines 62–100): POSTs the time-window body, always
prints the status code, prints the body text when the status is not
exactly 200, then `raise_for_status` (raises iff status ≥ 400), then parses
and prints the JSON body, and returns `None`. -/
def get_activity_runs (cred : Option String) (resp : HttpResponse)
    (pipeline_name pipeline_run_id : String) (run_start run_end : DateTime) :
    List Effect × Except PyError Unit :=
  match get_access_token cred with
  | .error e => ([], .error e)
  | .ok token =>
    let body := Json.obj [("lastUpdatedAfter", .str run_start.strftime),
      ("lastUpdatedBefore", .str run_end.strftime)]
    let req := Effect.post (activityRunsUrl pipeline_name pipeline_run_id)
      (authHeaders token) body
    let pre := if resp.status ≠ 200 then
        [req, .printActivityStatus resp.status, .printActivityBody resp.text]
      else [req, .printActivityStatus resp.status]
    match raise_for_status resp with
    | .error e => (pre, .error e)
    | .ok _ =>
      match respJson resp with
      | .error e => (pre, .error e)
      | .ok j => (pre ++ [.printActivityData j], .ok ())

/-- URL of the notebook-snapshot fetch (line 108). -/
def notebookSnapshotUrl (run_id : String) : String :=
  ENDPOINT ++ "/runnotebookapi/versions/2022-03-01-preview/pipelinerun/" ++
    run_id ++ "/snapshot"

/-- Operation `get_notebook_output` (lines 102–124): GETs the snapshot,
`raise_for_status`, parses the JSON body, writes it to
`notebook_output.json` (UTF-8, `indent=2`, `ensure_ascii=False`, mode
`"w"`), prints a confirmation, and returns the parsed document. -/
def get_notebook_output (cred : Option String) (resp : HttpResponse)
    (run_id : String) : List Effect × Except PyError Json :=
  match get_access_token cred with
  | .error e => ([], .error e)
  | .ok token =>
    let req := Effect.httpGet (notebookSnapshotUrl run_id) (authHeaders token)
    match raise_for_status resp with
    | .error e => ([req], .error e)
    | .ok _ =>
      match respJson resp with
      | .error e => ([req], .error e)
      | .ok data =>
        ([req, .writeJsonFile "notebook_output.json" data 2 false,
          .printNotebookDone], .ok data)

/-! ## Lemmas about the fixed-width decimal format -/

theorem padDigits_length (w : Nat) : ∀ n, (padDigits w n).length = w := by
  induction w with
  | zero => intro n; rfl
  | succ w ih => intro n; simp [padDigits, ih]

theorem padDigits_lt (w : Nat) : ∀ n, n < 10 ^ w → ∀ d ∈ padDigits w n, d < 10 := by
  induction w with
  | zero => intro n _ d hd; simp [padDigits] at hd
  | succ w ih =>
    intro n hn d hd
    have hpow : 0 < 10 ^ w := Nat.pos_pow_of_pos w (by omega)
    rcases List.mem_cons.mp hd with h | h
    · subst h
      have : n < 10 * 10 ^ w := by
        have := pow_succ 10 w
        omega
      exact Nat.div_lt_of_lt_mul (by omega)
    · exact ih (n % 10 ^ w) (Nat.mod_lt n hpow) d h

theorem readNatAux_padDigits (w : Nat) :
    ∀ a n, n < 10 ^ w → readNatAux a (padDigits w n) = a * 10 ^ w + n := by
  induction w with
  | zero =>
    intro a n hn
    simp [padDigits, readNatAux]
    omega
  | succ w ih =>
    intro a n hn
    have hpow : 0 < 10 ^ w := Nat.pos_pow_of_pos w (by omega)
    have hdm := Nat.div_add_mod n (10 ^ w)
    calc readNatAux a (padDigits (w + 1) n)
        = readNatAux (a * 10 + n / 10 ^ w) (padDigits w (n % 10 ^ w)) := rfl
      _ = (a * 10 + n / 10 ^ w) * 10 ^ w + n % 10 ^ w :=
          ih _ _ (Nat.mod_lt n hpow)
      _ = a * 10 ^ (w + 1) + (10 ^ w * (n / 10 ^ w) + n % 10 ^ w) := by ring
      _ = a * 10 ^ (w + 1) + n := by rw [hdm]

theorem charDigit_digitChar (d : Nat) (h : d < 10) :
    charDigit (digitChar d) = d := by
  interval_cases d <;> decide

theorem isDigit_digitChar (d : Nat) (h : d < 10) :
    (digitChar d).isDigit = true := by
  interval_cases d <;> decide

theorem fmtNat_length (w n : Nat) : (fmtNat w n).length = w := by
  simp [fmtNat, padDigits_length]

theorem fmtNat_all_isDigit (w n : Nat) (h : n < 10 ^ w) :
    (fmtNat w n).all Char.isDigit = true := by
  rw [List.all_eq_true]
  intro c hc
  rcases List.mem_map.mp hc with ⟨d, hd, rfl⟩
  exact isDigit_digitChar d (padDigits_lt w n h d hd)

theorem fmtNat_map_charDigit (w n : Nat) (h : n < 10 ^ w) :
    (fmtNat w n).map charDigit = padDigits w n := by
  rw [fmtNat, List.map_map]
  have : (padDigits w n).map (charDigit ∘ digitChar) =
      (padDigits w n).map id :=
    List.map_congr_left fun d hd =>
      charDigit_digitChar d (padDigits_lt w n h d hd)
  rw [this, List.map_id]

theorem take_append_of_length {α : Type} (l₁ l₂ : List α) (w : Nat)
    (h : l₁.length = w) : (l₁ ++ l₂).take w = l₁ := by
  subst h; exact List.take_left _ _

theorem drop_append_of_length {α : Type} (l₁ l₂ : List α) (w : Nat)
    (h : l₁.length = w) : (l₁ ++ l₂).drop w = l₂ := by
  subst h; exact List.drop_left _ _

theorem takeNum_fmtNat (w n : Nat) (h : n < 10 ^ w) (rest : List Char) :
    takeNum w (fmtNat w n ++ rest) = some (n, rest) := by
  have htake : (fmtNat w n ++ rest).take w = fmtNat w n :=
    take_append_of_length _ _ _ (fmtNat_length w n)
  have hdrop : (fmtNat w n ++ rest).drop w = rest :=
    drop_append_of_length _ _ _ (fmtNat_length w n)
  simp only [takeNum, htake, hdrop, fmtNat_length, fmtNat_all_isDigit w n h,
    and_true, eq_self_iff_true, if_true, true_and]
  rw [fmtNat_map_charDigit w n h, readNatAux_padDigits w 0 n h]
  simp

set_option maxHeartbeats 1000000 in
theorem strptime_strftime (dt : DateTime) (h : dt.valid) :
    strptime dt.strftime = some dt := by
  obtain ⟨h1, h2, h3, h4, h5, h6, h7, h8, h9, h10⟩ := h
  have e4 : (10 : Nat) ^ 4 = 10000 := by norm_num
  have e2 : (10 : Nat) ^ 2 = 100 := by norm_num
  have e6 : (10 : Nat) ^ 6 = 1000000 := by norm_num
  have hy : dt.year < 10 ^ 4 := by omega
  have hmo : dt.month < 10 ^ 2 := by omega
  have hd : dt.day < 10 ^ 2 := by omega
  have hh : dt.hour < 10 ^ 2 := by omega
  have hmi : dt.minute < 10 ^ 2 := by omega
  have hs : dt.second < 10 ^ 2 := by omega
  have hus : dt.microsecond < 10 ^ 6 := by omega
  rw [strptime, DateTime.strftime]
  rw [strptimeList]
  rw [takeNum_fmtNat 4 dt.year hy]
  simp only [Option.some_bind, expectChar, if_true]
  rw [takeNum_fmtNat 2 dt.month hmo]
  simp only [Option.some_bind, expectChar, if_true]
  rw [takeNum_fmtNat 2 dt.day hd]
  simp only [Option.some_bind, expectChar, if_true]
  rw [takeNum_fmtNat 2 dt.hour hh]
  simp only [Option.some_bind, expectChar, if_true]
  rw [takeNum_fmtNat 2 dt.minute hmi]
  simp only [Option.some_bind, expectChar, if_true]
  rw [takeNum_fmtNat 2 dt.second hs]
  simp only [Option.some_bind, expectChar, if_true]
  rw [takeNum_fmtNat 6 dt.microsecond hus]
  simp only [Option.some_bind, expectChar, if_true]
  rfl

/-! ## Claims -/

/-- C1: In `get_pipeline_runs`, if both `start_time` and `end_time` are
supplied the request window is exactly `(start_time, end_time)` verbatim;
otherwise (including when exactly one bound is supplied, the explicit bound
being silently discarded) the window is
`(now - days_back days, now)`, so the default window's duration is exactly
`days_back` days and it ends at call time.  Stated on the microsecond
timeline of naive datetimes. -/
theorem c1_window_resolution (st et : Option Int) (days_back : Nat) (now : Int) :
    (∀ s e, st = some s → et = some e →
      resolveWindow st et days_back now microsSubDays = (s, e)) ∧
    ((st = none ∨ et = none) →
      resolveWindow st et days_back now microsSubDays =
        (now - (days_back : Int) * (microsPerDay : Int), now) ∧
      now - (resolveWindow st et days_back now microsSubDays).1 =
        (days_back : Int) * (microsPerDay : Int) ∧
      (resolveWindow st et days_back now microsSubDays).2 = now) := by
  constructor
  · rintro s e rfl rfl
    rfl
  · intro hne
    have hw : resolveWindow st et days_back now microsSubDays =
        (now - (days_back : Int) * (microsPerDay : Int), now) := by
      rcases hne with h | h
      · subst h; cases et <;> rfl
      · subst h; cases st <;> rfl
    refine ⟨hw, ?_, by rw [hw]⟩
    rw [hw]
    ring

/-- C1 witness. -/
theorem c1_witness :
    resolveWindow (some 5) (some 9) 7 100 microsSubDays = (5, 9) ∧
    resolveWindow (none : Option Int) none 2 1000000000000 microsSubDays =
      (1000000000000 - (2 : Int) * (microsPerDay : Int), 1000000000000) :=
  ⟨(c1_window_resolution (some 5) (some 9) 7 100).1 5 9 rfl rfl,
   ((c1_window_resolution none none 2 1000000000000).2 (Or.inl rfl)).1⟩

/-- C2: with a non-empty `pipeline_name` the request body has a `filters`
list with exactly the single entry
`{operand: "PipelineName", operator: "Equals", values: [pipeline_name]}`;
with `pipeline_name` empty or absent, the body has no `filters` key. -/
theorem c2_pipeline_name_filter (s e : DateTime) (p : String) (hp : p ≠ "") :
    jsonLookup (buildPipelineRunsBody s e (some p)) "filters" =
      some (.arr [pipelineNameFilter p]) ∧
    jsonLookup (buildPipelineRunsBody s e none) "filters" = none ∧
    jsonLookup (buildPipelineRunsBody s e (some "")) "filters" = none := by
  have hb : (p == "") = false := beq_eq_false_iff_ne.mpr hp
  refine ⟨?_, ?_, ?_⟩
  · simp [buildPipelineRunsBody, pyTruthy, hb, jsonLookup, List.lookup]
  · simp [buildPipelineRunsBody, pyTruthy, jsonLookup, List.lookup]
  · simp [buildPipelineRunsBody, pyTruthy, jsonLookup, List.lookup]

/-- C2 witness. -/
theorem c2_witness :
    jsonLookup (buildPipelineRunsBody ⟨2026, 2, 1, 0, 0, 0, 0⟩
        ⟨2026, 2, 10, 0, 0, 0, 0⟩ (some "PipelineWaitTest")) "filters" =
      some (.arr [pipelineNameFilter "PipelineWaitTest"]) :=
  (c2_pipeline_name_filter ⟨2026, 2, 1, 0, 0, 0, 0⟩ ⟨2026, 2, 10, 0, 0, 0, 0⟩
    "PipelineWaitTest" (by decide)).1

/-- C3: on an HTTP-successful (2xx) response whose body is a JSON object,
`get_pipeline_runs` returns what is stored under the body's `"value"` key,
and the empty array when that key is absent. -/
theorem c3_returns_value_array (t : String) (now : DateTime)
    (resp : HttpResponse) (days_back : Nat) (pn : Option String)
    (st et : Option DateTime) (fields : List (String × Json))
    (h2xx : 200 ≤ resp.status ∧ resp.status < 300)
    (hbody : resp.jsonBody = some (.obj fields)) :
    (get_pipeline_runs (some t) now resp days_back pn st et).2 =
      .ok ((fields.lookup "value").getD (.arr [])) ∧
    (fields.lookup "value" = none →
      (get_pipeline_runs (some t) now resp days_back pn st et).2 =
        .ok (.arr [])) := by
  have hraise : raise_for_status resp = .ok () := by
    rw [raise_for_status, if_neg (by omega)]
  constructor
  · simp [get_pipeline_runs, get_access_token, hraise, respJson, hbody, dictGet]
  · intro hnone
    simp [get_pipeline_runs, get_access_token, hraise, respJson, hbody,
      dictGet, hnone]

/-- C3 witness: the spec's concrete scenario, a body
`{"value": [{"runId": "r1", ...}]}` comes back as that one-element array. -/
theorem c3_witness :
    (get_pipeline_runs (some "tok") ⟨2026, 2, 12, 0, 0, 0, 0⟩
        ⟨200, some (.obj [("value", .arr [.obj [("runId", .str "r1")]])]), "ok"⟩
        1 none none none).2 =
      .ok (.arr [.obj [("runId", .str "r1")]]) := by
  have h := (c3_returns_value_array "tok" ⟨2026, 2, 12, 0, 0, 0, 0⟩
    ⟨200, some (.obj [("value", .arr [.obj [("runId", .str "r1")]])]), "ok"⟩
    1 none none none [("value", .arr [.obj [("runId", .str "r1")]])]
    (by decide) rfl).1
  rw [h]
  rfl

/-- C4 counterexample: a non-2xx response (status 301) on which
`get_notebook_output` raises nothing, writes `notebook_output.json`, and
returns normally — refuting "every non-2xx response raises an HTTP error
and no output file is created". -/
theorem c4_counterexample :
    ¬ (200 ≤ 301 ∧ 301 < 300) ∧
    get_notebook_output (some "token") ⟨301, some (.obj []), "moved"⟩ "run" =
      ([.httpGet (notebookSnapshotUrl "run") (authHeaders "token"),
        .writeJsonFile "notebook_output.json" (.obj []) 2 false,
        .printNotebookDone], .ok (.obj [])) :=
  ⟨by omega, rfl⟩

/-- C4 (amended): on a response with a 4xx/5xx status
(`400 ≤ status ≤ 599`, exactly the statuses `raise_for_status` turns into
exceptions), `get_notebook_output` raises the HTTP error and its effect
trace contains no file write at all. -/
theorem c4_error_no_write (t : String) (resp : HttpResponse) (run_id : String)
    (h4 : 400 ≤ resp.status) (h6 : resp.status < 600) :
    (get_notebook_output (some t) resp run_id).2 =
      .error (.httpError resp.status) ∧
    ∀ p d i a, Effect.writeJsonFile p d i a ∉
      (get_notebook_output (some t) resp run_id).1 := by
  have hraise : raise_for_status resp = .error (.httpError resp.status) := by
    rw [raise_for_status, if_pos ⟨h4, h6⟩]
  constructor
  · simp [get_notebook_output, get_access_token, hraise]
  · intro p d i a
    simp [get_notebook_output, get_access_token, hraise]

/-- C4 witness. -/
theorem c4_witness :
    (get_notebook_output (some "token") ⟨404, none, "not found"⟩ "run").2 =
      .error (.httpError 404) :=
  (c4_error_no_write "token" ⟨404, none, "not found"⟩ "run" (by decide)
    (by decide)).1

/-- C5: on an HTTP-successful response parsing to document `D`,
`get_notebook_output` performs exactly one write — the truncating
(overwriting) write of `D` to the fixed relative path
`notebook_output.json` with `indent=2`, `ensure_ascii=False`, UTF-8 —
and returns `D` itself, so the returned value and the document serialised
to the file are the same. -/
theorem c5_writes_and_returns (t : String) (resp : HttpResponse)
    (run_id : String) (D : Json)
    (h2xx : 200 ≤ resp.status ∧ resp.status < 300)
    (hbody : resp.jsonBody = some D) :
    get_notebook_output (some t) resp run_id =
      ([.httpGet (notebookSnapshotUrl run_id) (authHeaders t),
        .writeJsonFile "notebook_output.json" D 2 false,
        .printNotebookDone], .ok D) := by
  have hraise : raise_for_status resp = .ok () := by
    rw [raise_for_status, if_neg (by omega)]
  simp [get_notebook_output, get_access_token, hraise, respJson, hbody]

/-- C5 witness: the spec's concrete scenario with body `{"cells": []}`. -/
theorem c5_witness :
    get_notebook_output (some "tok")
        ⟨200, some (.obj [("cells", .arr [])]), "ok"⟩ "abc-123" =
      ([.httpGet (notebookSnapshotUrl "abc-123") (authHeaders "tok"),
        .writeJsonFile "notebook_output.json" (.obj [("cells", .arr [])]) 2 false,
        .printNotebookDone], .ok (.obj [("cells", .arr [])])) :=
  c5_writes_and_returns "tok" ⟨200, some (.obj [("cells", .arr [])]), "ok"⟩
    "abc-123" (.obj [("cells", .arr [])]) (by decide) rfl

/-- C6: for every valid pair `start ≤ end`, the strings the request body
carries under `lastUpdatedAfter` / `lastUpdatedBefore` are the
`%Y-%m-%dT%H:%M:%S.%fZ` renderings of the inputs, and parsing each string
back with the same format recovers the input exactly (to microsecond
precision). -/
theorem c6_timestamp_roundtrip (s e : DateTime) (pn : Option String)
    (hs : s.valid) (he : e.valid) (_hle : s.key ≤ e.key) :
    jsonLookup (buildPipelineRunsBody s e pn) "lastUpdatedAfter" =
      some (.str s.strftime) ∧
    jsonLookup (buildPipelineRunsBody s e pn) "lastUpdatedBefore" =
      some (.str e.strftime) ∧
    strptime s.strftime = some s ∧ strptime e.strftime = some e := by
  refine ⟨?_, ?_, strptime_strftime s hs, strptime_strftime e he⟩ <;>
    cases htr : pyTruthy pn <;> simp only [buildPipelineRunsBody, htr] <;> rfl

/-- C6 witness. -/
theorem c6_witness :
    strptime (DateTime.strftime ⟨2026, 2, 1, 0, 0, 0, 0⟩) =
      some ⟨2026, 2, 1, 0, 0, 0, 0⟩ ∧
    strptime (DateTime.strftime ⟨2026, 2, 10, 13, 45, 59, 123456⟩) =
      some ⟨2026, 2, 10, 13, 45, 59, 123456⟩ :=
  ⟨(c6_timestamp_roundtrip ⟨2026, 2, 1, 0, 0, 0, 0⟩
      ⟨2026, 2, 10, 13, 45, 59, 123456⟩ none (by decide) (by decide)
      (by decide)).2.2.1,
   (c6_timestamp_roundtrip ⟨2026, 2, 1, 0, 0, 0, 0⟩
      ⟨2026, 2, 10, 13, 45, 59, 123456⟩ none (by decide) (by decide)
      (by decide)).2.2.2⟩

/-- C7: on every HTTP-successful (2xx, JSON-parseable) call,
`get_activity_runs` returns `None` — no structured data — even though it
parses and prints the response JSON. -/
theorem c7_activity_returns_none (t : String) (resp : HttpResponse)
    (pn prid : String) (rs re : DateTime) (j : Json)
    (h2xx : 200 ≤ resp.status ∧ resp.status < 300)
    (hbody : resp.jsonBody = some j) :
    (get_activity_runs (some t) resp pn prid rs re).2 = .ok () ∧
    Effect.printActivityData j ∈ (get_activity_runs (some t) resp pn prid rs re).1 := by
  have hraise : raise_for_status resp = .ok () := by
    rw [raise_for_status, if_neg (by omega)]
  constructor
  · simp [get_activity_runs, get_access_token, hraise, respJson, hbody]
  · simp [get_activity_runs, get_access_token, hraise, respJson, hbody]

/-- C7 witness. -/
theorem c7_witness :
    (get_activity_runs (some "tok") ⟨200, some (.arr []), "ok"⟩ "P" "r1"
        ⟨2026, 2, 1, 0, 0, 0, 0⟩ ⟨2026, 2, 10, 0, 0, 0, 0⟩).2 = .ok () :=
  (c7_activity_returns_none "tok" ⟨200, some (.arr []), "ok"⟩ "P" "r1"
    ⟨2026, 2, 1, 0, 0, 0, 0⟩ ⟨2026, 2, 10, 0, 0, 0, 0⟩ (.arr [])
    (by decide) rfl).1

/-- C8 counterexample: a non-2xx response (status 301) on which
`get_activity_runs` completes without raising any HTTP error — refuting
"every non-2xx response leads to the HTTP error exception". -/
theorem c8_counterexample :
    ¬ (200 ≤ 301 ∧ 301 < 300) ∧
    (get_activity_runs (some "token") ⟨301, some (.obj []), "moved"⟩ "p" "r"
        ⟨2026, 2, 1, 0, 0, 0, 0⟩ ⟨2026, 2, 10, 0, 0, 0, 0⟩).2 = .ok () :=
  ⟨by omega, rfl⟩

/-- C8 (amended): on every response with a 4xx/5xx status
(`400 ≤ status ≤ 599`, exactly the statuses `raise_for_status` raises on),
`get_activity_runs` first prints the status code and the response body and
only afterwards raises: its complete effect trace is request, status line,
body line — the diagnostics precede the exception. -/
theorem c8_diagnostics_before_raise (t : String) (resp : HttpResponse)
    (pn prid : String) (rs re : DateTime) (h4 : 400 ≤ resp.status)
    (h6 : resp.status < 600) :
    get_activity_runs (some t) resp pn prid rs re =
      ([.post (activityRunsUrl pn prid) (authHeaders t)
          (.obj [("lastUpdatedAfter", .str rs.strftime),
            ("lastUpdatedBefore", .str re.strftime)]),
        .printActivityStatus resp.status,
        .printActivityBody resp.text],
       .error (.httpError resp.status)) := by
  have hraise : raise_for_status resp = .error (.httpError resp.status) := by
    rw [raise_for_status, if_pos ⟨h4, h6⟩]
  have hne : resp.status ≠ 200 := by omega
  simp [get_activity_runs, get_access_token, hraise, hne]

/-- C8 witness. -/
theorem c8_witness :
    get_activity_runs (some "tok") ⟨500, none, "boom"⟩ "P" "r1"
        ⟨2026, 2, 1, 0, 0, 0, 0⟩ ⟨2026, 2, 10, 0, 0, 0, 0⟩ =
      ([.post (activityRunsUrl "P" "r1") (authHeaders "tok")
          (.obj [("lastUpdatedAfter",
              .str (DateTime.strftime ⟨2026, 2, 1, 0, 0, 0, 0⟩)),
            ("lastUpdatedBefore",
              .str (DateTime.strftime ⟨2026, 2, 10, 0, 0, 0, 0⟩))]),
        .printActivityStatus 500, .printActivityBody "boom"],
       .error (.httpError 500)) :=
  c8_diagnostics_before_raise "tok" ⟨500, none, "boom"⟩ "P" "r1"
    ⟨2026, 2, 1, 0, 0, 0, 0⟩ ⟨2026, 2, 10, 0, 0, 0, 0⟩ (by decide) (by decide)

/-- C9: no operation validates window ordering — with a reversed window
(`end < start` chronologically) both `get_pipeline_runs` and
`get_activity_runs` still build the same request body from the given bounds
and issue the request, and any exception they raise is an authentication,
HTTP-status, or response-handling error, never a window-validation error. -/
theorem c9_no_window_validation (t : String) (now : DateTime)
    (resp respA : HttpResponse) (days_back : Nat) (pn : Option String)
    (pname prid : String) (s e : DateTime) (_hrev : e.key < s.key) :
    ((get_pipeline_runs (some t) now resp days_back pn (some s) (some e)).1.head? =
      some (.post pipelineRunsUrl (authHeaders t) (buildPipelineRunsBody s e pn)) ∧
     ∀ err, (get_pipeline_runs (some t) now resp days_back pn
         (some s) (some e)).2 = .error err →
       err = .httpError resp.status ∨ err = .jsonDecodeError ∨
         err = .attributeError) ∧
    ((get_activity_runs (some t) respA pname prid s e).1.head? =
      some (.post (activityRunsUrl pname prid) (authHeaders t)
        (.obj [("lastUpdatedAfter", .str s.strftime),
          ("lastUpdatedBefore", .str e.strftime)])) ∧
     ∀ err, (get_activity_runs (some t) respA pname prid s e).2 = .error err →
       err = .httpError respA.status ∨ err = .jsonDecodeError) := by
  constructor
  · constructor
    · rcases hrs : raise_for_status resp with e' | u
      · simp [get_pipeline_runs, get_access_token, hrs, resolveWindow]
      · rcases hb : resp.jsonBody with _ | j
        · simp [get_pipeline_runs, get_access_token, hrs, respJson, hb,
            resolveWindow]
        · rcases j with _ | b | n | str | xs | fs <;>
            simp [get_pipeline_runs, get_access_token, hrs, respJson, hb,
              dictGet, resolveWindow]
    · intro err herr
      rcases h4 : raise_for_status resp with e' | u
      · rw [raise_for_status] at h4
        by_cases hge : 400 ≤ resp.status ∧ resp.status < 600
        · rw [if_pos hge] at h4
          simp [get_pipeline_runs, get_access_token, raise_for_status,
            if_pos hge, resolveWindow] at herr
          subst herr
          injection h4 with h4'
          subst h4'
          left; rfl
        · rw [if_neg hge] at h4; cases h4
      · rw [raise_for_status] at h4
        by_cases hge : 400 ≤ resp.status ∧ resp.status < 600
        · rw [if_pos hge] at h4; cases h4
        · rcases hb : resp.jsonBody with _ | j
          · simp [get_pipeline_runs, get_access_token, raise_for_status,
              if_neg hge, respJson, hb, resolveWindow] at herr
            subst herr; right; left; rfl
          · rcases j with _ | b | n | str | xs | fs <;>
              simp [get_pipeline_runs, get_access_token, raise_for_status,
                if_neg hge, respJson, hb, dictGet, resolveWindow] at herr <;>
              subst herr <;> right <;> right <;> rfl
  · constructor
    · rcases hrs : raise_for_status respA with e' | u
      · by_cases h200 : respA.status = 200 <;>
          simp [get_activity_runs, get_access_token, hrs, h200]
      · rcases hb : respA.jsonBody with _ | j <;>
          by_cases h200 : respA.status = 200 <;>
          simp [get_activity_runs, get_access_token, hrs, respJson, hb, h200]
    · intro err herr
      by_cases hge : 400 ≤ respA.status ∧ respA.status < 600
      · have hrs : raise_for_status respA = .error (.httpError respA.status) := by
          rw [raise_for_status, if_pos hge]
        by_cases h200 : respA.status = 200
        · omega
        · simp [get_activity_runs, get_access_token, hrs, h200] at herr
          subst herr; left; rfl
      · have hrs : raise_for_status respA = .ok () := by
          rw [raise_for_status, if_neg hge]
        rcases hb : respA.jsonBody with _ | j
        · by_cases h200 : respA.status = 200 <;>
            simp [get_activity_runs, get_access_token, hrs, respJson, hb,
              h200] at herr <;> subst herr <;> right <;> rfl
        · by_cases h200 : respA.status = 200 <;>
            simp [get_activity_runs, get_access_token, hrs, respJson, hb,
              h200] at herr

/-- C9 witness. -/
theorem c9_witness :
    (get_pipeline_runs (some "tok") ⟨2026, 2, 12, 0, 0, 0, 0⟩
        ⟨200, some (.obj []), "ok"⟩ 7 none
        (some ⟨2026, 2, 10, 0, 0, 0, 0⟩) (some ⟨2026, 2, 1, 0, 0, 0, 0⟩)).1.head? =
      some (.post pipelineRunsUrl (authHeaders "tok")
        (buildPipelineRunsBody ⟨2026, 2, 10, 0, 0, 0, 0⟩
          ⟨2026, 2, 1, 0, 0, 0, 0⟩ none)) :=
  (c9_no_window_validation "tok" ⟨2026, 2, 12, 0, 0, 0, 0⟩
    ⟨200, some (.obj []), "ok"⟩ ⟨200, some (.obj []), "ok"⟩ 7 none "P" "r1"
    ⟨2026, 2, 10, 0, 0, 0, 0⟩ ⟨2026, 2, 1, 0, 0, 0, 0⟩ (by decide)).1.1

/-- C10 counterexample: a response with the non-standard status 999 — for
which "status is 400 or greater" holds — on which `get_activity_runs`
raises no HTTP error at all and returns normally, refuting the claimed
biconditional "the HTTP error is raised if and only if the status code is
400 or greater" (`requests` raises only for 400–599). -/
theorem c10_counterexample :
    400 ≤ 999 ∧
    (get_activity_runs (some "token") ⟨999, some (.obj []), "err"⟩ "p" "r"
        ⟨2026, 2, 1, 0, 0, 0, 0⟩ ⟨2026, 2, 10, 0, 0, 0, 0⟩).2 = .ok () :=
  ⟨by omega, rfl⟩

/-- C10 (amended): in `get_activity_runs` the diagnostic condition and the
raise condition differ: the response body is printed iff the status is not
exactly 200, while the HTTP error is raised iff the status is in 400–599
(the band `requests.Response.raise_for_status` raises on); hence on any
status in 201–399 (e.g. 202, 204, 301) the body is logged through the
failure-diagnostic branch, yet nothing is raised and the function proceeds
to parse the body. -/
theorem c10_diagnostic_vs_raise (t : String) (resp : HttpResponse)
    (pn prid : String) (rs re : DateTime) :
    (Effect.printActivityBody resp.text ∈
        (get_activity_runs (some t) resp pn prid rs re).1 ↔
      resp.status ≠ 200) ∧
    ((∃ code, (get_activity_runs (some t) resp pn prid rs re).2 =
        .error (.httpError code)) ↔
      400 ≤ resp.status ∧ resp.status < 600) ∧
    (∀ j, 200 < resp.status → resp.status < 400 → resp.jsonBody = some j →
      Effect.printActivityBody resp.text ∈
        (get_activity_runs (some t) resp pn prid rs re).1 ∧
      (get_activity_runs (some t) resp pn prid rs re).2 = .ok () ∧
      Effect.printActivityData j ∈
        (get_activity_runs (some t) resp pn prid rs re).1) := by
  refine ⟨?_, ?_, ?_⟩
  · by_cases h200 : resp.status = 200
    · rcases hrs : raise_for_status resp with e' | u
      · simp [get_activity_runs, get_access_token, hrs, h200]
      · rcases hb : resp.jsonBody with _ | j <;>
          simp [get_activity_runs, get_access_token, hrs, respJson, hb, h200]
    · rcases hrs : raise_for_status resp with e' | u
      · simp [get_activity_runs, get_access_token, hrs, h200]
      · rcases hb : resp.jsonBody with _ | j <;>
          simp [get_activity_runs, get_access_token, hrs, respJson, hb, h200]
  · by_cases hge : 400 ≤ resp.status ∧ resp.status < 600
    · have hrs : raise_for_status resp = .error (.httpError resp.status) := by
        rw [raise_for_status, if_pos hge]
      have hne : resp.status ≠ 200 := by omega
      simp [get_activity_runs, get_access_token, hrs, hne, hge.1, hge.2]
    · have hrs : raise_for_status resp = .ok () := by
        rw [raise_for_status, if_neg hge]
      rcases hb : resp.jsonBody with _ | j <;>
        by_cases h200 : resp.status = 200 <;>
        simp [get_activity_runs, get_access_token, hrs, respJson, hb, h200, hge]
  · intro j hgt hlt hb
    have hrs : raise_for_status resp = .ok () := by
      rw [raise_for_status, if_neg (by omega)]
    have hne : resp.status ≠ 200 := by omega
    refine ⟨?_, ?_, ?_⟩ <;>
      simp [get_activity_runs, get_access_token, hrs, respJson, hb, hne]

/-- C10 witness: a 202 response with a JSON body is logged through the
failure-diagnostic branch, not raised on, and parsed. -/
theorem c10_witness :
    Effect.printActivityBody "accepted" ∈
      (get_activity_runs (some "tok") ⟨202, some (.obj []), "accepted"⟩
        "P" "r1" ⟨2026, 2, 1, 0, 0, 0, 0⟩ ⟨2026, 2, 10, 0, 0, 0, 0⟩).1 ∧
    (get_activity_runs (some "tok") ⟨202, some (.obj []), "accepted"⟩
        "P" "r1" ⟨2026, 2, 1, 0, 0, 0, 0⟩ ⟨2026, 2, 10, 0, 0, 0, 0⟩).2 = .ok () :=
  have h := (c10_diagnostic_vs_raise "tok" ⟨202, some (.obj []), "accepted"⟩
    "P" "r1" ⟨2026, 2, 1, 0, 0, 0, 0⟩ ⟨2026, 2, 10, 0, 0, 0, 0⟩).2.2
    (.obj []) (by decide) (by decide) rfl
  ⟨h.1, h.2.1⟩
